import Mathlib

/-!
Verification development for the FinanceApp SMS parser
(`app/services/parser.py`).

The Python module is shallowly embedded below.  Text is modelled as
`List Char`; Python's `re` searches are modelled by a small backtracking
matcher (`Rx` / `runRx`) with PCRE-style semantics (leftmost match,
ordered alternation, greedy quantifiers with backtracking, word
boundaries, capture groups).  Monetary values are modelled as `ℚ`
(exact for the decimal strings the code parses; the code's range
comparisons against the integers 1 and 10_000_000 coincide with the
binary-float comparisons for all representable inputs).  The spaCy
linguistic analyzer and the datetime library's day arithmetic are
external capabilities and are passed in as explicit parameters
(`Nlp`, `DtLib`); everything else is translated from the source.
-/

namespace FinanceApp

/-! ## Basic string utilities (Python `str` operations on ASCII text) -/

/-- Python `str.lower()` restricted to ASCII (all inputs considered are ASCII). -/
def asciiLowerChar (c : Char) : Char :=
  if 'A' ≤ c ∧ c ≤ 'Z' then Char.ofNat (c.toNat + 32) else c

/-- Python `str.upper()` restricted to ASCII. -/
def asciiUpperChar (c : Char) : Char :=
  if 'a' ≤ c ∧ c ≤ 'z' then Char.ofNat (c.toNat - 32) else c

def pyLower (s : List Char) : List Char := s.map asciiLowerChar

def pyUpper (s : List Char) : List Char := s.map asciiUpperChar

/-- Python regex `\w` (ASCII fragment): letters, digits, underscore. -/
def isWordChar (c : Char) : Bool := c.isAlphanum || c == '_'

def isAsciiAlpha (c : Char) : Bool := ('a' ≤ c ∧ c ≤ 'z') ∨ ('A' ≤ c ∧ c ≤ 'Z')

def isLowerAlpha (c : Char) : Bool := 'a' ≤ c ∧ c ≤ 'z'

def isUpperAlpha (c : Char) : Bool := 'A' ≤ c ∧ c ≤ 'Z'

/-- `needle` is a prefix of `hay`. -/
def startsWithL : List Char → List Char → Bool
  | _, [] => true
  | [], _ :: _ => false
  | a :: s, b :: t => a == b && startsWithL s t

def subIdxAux (hay needle : List Char) : Nat → Nat → Option Nat
  | 0, _ => none
  | fl + 1, i =>
    if startsWithL (hay.drop i) needle then some i
    else if i < hay.length then subIdxAux hay needle fl (i + 1)
    else none

/-- Python `str.find` (first index of a substring, `none` for `-1`). -/
def subIdx (hay needle : List Char) : Option Nat :=
  subIdxAux hay needle (hay.length + 1) 0

/-- Python `needle in hay` substring test. -/
def containsSub (hay needle : List Char) : Bool := (subIdx hay needle).isSome

/-- Python slice `s[a:b]` (indices clamp). -/
def sliceL (s : List Char) (a b : Nat) : List Char := (s.drop a).take (b - a)

/-- Python `str.strip()`. -/
def stripWs (s : List Char) : List Char :=
  ((s.dropWhile Char.isWhitespace).reverse.dropWhile Char.isWhitespace).reverse

/-- `re.sub(r"\s+", " ", s)`: collapse every whitespace run to a single space. -/
def collapseWsAux : Bool → List Char → List Char
  | _, [] => []
  | prevWs, c :: rest =>
    if c.isWhitespace then
      if prevWs then collapseWsAux true rest else ' ' :: collapseWsAux true rest
    else c :: collapseWsAux false rest

def collapseWs (s : List Char) : List Char := collapseWsAux false s

/-- Python `str.split()` (split on whitespace runs, dropping empties). -/
def splitWsAux : List Char → List Char → List (List Char)
  | acc, [] => if acc.isEmpty then [] else [acc.reverse]
  | acc, c :: rest =>
    if c.isWhitespace then
      if acc.isEmpty then splitWsAux [] rest else acc.reverse :: splitWsAux [] rest
    else splitWsAux (c :: acc) rest

def splitWs (s : List Char) : List (List Char) := splitWsAux [] s

/-- Python `str.capitalize()`: first char upper, rest lower. -/
def capitalizeL : List Char → List Char
  | [] => []
  | c :: r => asciiUpperChar c :: r.map asciiLowerChar

/-- Python `str.title()`: a cased char not preceded by a cased char is
uppercased, every other cased char is lowercased. -/
def titleLAux : Bool → List Char → List Char
  | _, [] => []
  | prevCased, c :: r =>
    if isAsciiAlpha c then
      (if prevCased then asciiLowerChar c else asciiUpperChar c) :: titleLAux true r
    else c :: titleLAux false r

def titleL (s : List Char) : List Char := titleLAux false s

/-- `" ".join(words)`. -/
def joinSpace : List (List Char) → List Char
  | [] => []
  | [w] => w
  | w :: rest => w ++ ' ' :: joinSpace rest

/-- `s.replace(",", "")`. -/
def stripCommas (s : List Char) : List Char := s.filter (fun c => c ≠ ',')

def digitVal (c : Char) : Nat := c.toNat - 48

def natOfDigits (s : List Char) : Nat := s.foldl (fun n c => n * 10 + digitVal c) 0

def digitChar (n : Nat) : Char :=
  match n % 10 with
  | 0 => '0' | 1 => '1' | 2 => '2' | 3 => '3' | 4 => '4'
  | 5 => '5' | 6 => '6' | 7 => '7' | 8 => '8' | _ => '9'

def natToDigitsAux : Nat → Nat → List Char
  | 0, _ => []
  | fl + 1, n => if n < 10 then [digitChar n] else natToDigitsAux fl (n / 10) ++ [digitChar (n % 10)]

/-- Decimal digits of `n`, no padding (`"0"` for zero). -/
def natToDigits (n : Nat) : List Char := natToDigitsAux (n + 1) n

/-! ## Parsing and formatting of Python floats

The code only ever calls `float` on strings of decimal digits with at
most one dot (commas already removed); `parseFloat` models exactly
that fragment and returns `none` where Python's `float` raises
`ValueError` (which the code catches).  Exponent/sign/space forms of
Python float syntax are not modelled; the surrounding code treats an
unparsable candidate the same as an out-of-range one (it is skipped),
so this does not affect any claim. -/

def splitAtDot (s : List Char) : List Char × Option (List Char) :=
  match subIdx s ['.'] with
  | none => (s, none)
  | some i => (s.take i, some (s.drop (i + 1)))

def parseFloat (s : List Char) : Option ℚ :=
  let (ip, fpOpt) := splitAtDot s
  match fpOpt with
  | none =>
    if s ≠ [] ∧ s.all Char.isDigit then some (mkRat (natOfDigits s) 1) else none
  | some fp =>
    if (ip ≠ [] ∨ fp ≠ []) ∧ ip.all Char.isDigit ∧ fp.all Char.isDigit ∧
        ¬ containsSub fp ['.'] then
      some (mkRat (natOfDigits ip * 10 ^ fp.length + natOfDigits fp) (10 ^ fp.length))
    else none

/-- Half-even rounding of `q * 100` to an integer (CPython float
formatting), computed on the numerator/denominator representation,
for the nonnegative values the code formats. -/
def cents100 (q : ℚ) : Nat :=
  let n := q.num.toNat * 100
  let d := q.den
  let f := n / d
  let r := n % d
  if 2 * r < d then f
  else if d < 2 * r then f + 1
  else if f % 2 = 0 then f else f + 1

/-- Group the (reversed) digit list in threes, separated by commas. -/
def group3Aux : Nat → List Char → List Char
  | 0, ds => ds
  | fl + 1, ds => if ds.length ≤ 3 then ds else ds.take 3 ++ ',' :: group3Aux fl (ds.drop 3)

/-- Insert `,` every three digits from the right (Python `{:,}` grouping). -/
def group3 (ds : List Char) : List Char := (group3Aux ds.length ds.reverse).reverse

/-- Python `f"{q:,.2f}"` for nonnegative `q`: thousands-grouped integer
part and exactly two (half-even rounded) decimals. -/
def format2f (q : ℚ) : List Char :=
  let cents := cents100 q
  let ip := cents / 100
  let fr := cents % 100
  group3 (natToDigits ip) ++ '.' :: [digitChar (fr / 10), digitChar fr]

/-- `f"{currency} {amount:,.2f}"`. -/
def formatMoney (code : String) (q : ℚ) : String :=
  String.mk (code.data ++ ' ' :: format2f q)

/-! ## A small backtracking regex matcher

`Rx` covers exactly the constructs used by the patterns in
`parser.py`: literals, character classes, sequencing, ordered
alternation, greedy `?` / `*` / bounded repetition (via desugaring),
capture groups and the word boundary `\b`.  `runRx` implements
Python `re` semantics: alternatives are tried in order, quantifiers
are greedy and backtrack, the continuation decides acceptance.
Case-insensitive searches are performed on a lowered copy of the
text (indices are preserved; inputs are ASCII). -/

inductive Rx : Type where
  | eps : Rx
  | lit : List Char → Rx
  | cls : (Char → Bool) → Rx
  | seq : Rx → Rx → Rx
  | alt : Rx → Rx → Rx
  | opt : Rx → Rx
  | star : Rx → Rx
  | grp : Nat → Rx → Rx
  | bnd : Rx
  | eol : Rx

/-- Captured group spans: (group index, start, stop). -/
abbrev Caps := List (Nat × Nat × Nat)

def capGet (caps : Caps) (i : Nat) : Option (Nat × Nat) :=
  match caps with
  | [] => none
  | (j, a, b) :: rest => if j = i then some (a, b) else capGet rest i

def wordAt (s : List Char) (i : Nat) : Bool :=
  match s.get? i with
  | some c => isWordChar c
  | none => false

/-- Backtracking matcher in continuation style; `fuel` bounds the
recursion depth (every recursive call consumes one unit). -/
def runRx (s : List Char) :
    Nat → Rx → Nat → Caps → (Nat → Caps → Option (Nat × Caps)) → Option (Nat × Caps)
  | 0, _, _, _, _ => none
  | fl + 1, rx, i, caps, k =>
    match rx with
    | .eps => k i caps
    | .lit l => if startsWithL (s.drop i) l then k (i + l.length) caps else none
    | .cls p =>
      match s.get? i with
      | some c => if p c then k (i + 1) caps else none
      | none => none
    | .seq a b => runRx s fl a i caps (fun j cps => runRx s fl b j cps k)
    | .alt a b =>
      match runRx s fl a i caps k with
      | some r => some r
      | none => runRx s fl b i caps k
    | .opt a =>
      match runRx s fl a i caps k with
      | some r => some r
      | none => k i caps
    | .star a =>
      match runRx s fl a i caps
          (fun j cps => if i < j then runRx s fl (.star a) j cps k else none) with
      | some r => some r
      | none => k i caps
    | .grp n a => runRx s fl a i caps (fun j cps => k j ((n, i, j) :: cps))
    | .bnd =>
      let prevW := if i = 0 then false else wordAt s (i - 1)
      if prevW ≠ wordAt s i then k i caps else none
    | .eol =>
      if i = s.length ∨ (i + 1 = s.length ∧ s.get? i = some (Char.ofNat 10)) then k i caps
      else none

/-- Fuel that is ample for every pattern below on input `s`. -/
def rxFuel (s : List Char) : Nat := (s.length + 2) * 400

/-- Try to match `r` at position `i` of `s`. -/
def rxMatchAt (r : Rx) (s : List Char) (i : Nat) : Option (Nat × Caps) :=
  runRx s (rxFuel s) r i [] (fun j caps => some (j, caps))

def rxSearchAux (s : List Char) (r : Rx) : Nat → Nat → Option (Nat × Nat × Caps)
  | 0, _ => none
  | fl + 1, i =>
    match rxMatchAt r s i with
    | some (j, caps) => some (i, j, caps)
    | none => if i < s.length then rxSearchAux s r fl (i + 1) else none

/-- Python `re.search`: leftmost match, as (start, stop, captures). -/
def rxSearch (r : Rx) (s : List Char) : Option (Nat × Nat × Caps) :=
  rxSearchAux s r (s.length + 1) 0

def rxFindAllAux (s : List Char) (r : Rx) : Nat → Nat → List (Nat × Nat × Caps)
  | 0, _ => []
  | fl + 1, i =>
    match rxSearchAux s r (s.length + 1 - i) i with
    | some (a, b, caps) =>
      (a, b, caps) :: (if b > a then rxFindAllAux s r fl b else rxFindAllAux s r fl (b + 1))
    | none => []

/-- Python `re.finditer`: successive non-overlapping matches. -/
def rxFindAll (r : Rx) (s : List Char) : List (Nat × Nat × Caps) :=
  rxFindAllAux s r (s.length + 2) 0

def capSlice (s : List Char) (caps : Caps) (i : Nat) : List Char :=
  match capGet caps i with
  | some (a, b) => sliceL s a b
  | none => []

/-! Pattern-building helpers. -/

def rseq (l : List Rx) : Rx := l.foldr Rx.seq Rx.eps

def raltL : Rx → List Rx → Rx
  | a, [] => a
  | a, b :: rest => Rx.alt a (raltL b rest)

def ralt (l : List Rx) : Rx :=
  match l with
  | [] => Rx.eps
  | a :: rest => raltL a rest

def rstr (s : String) : Rx := Rx.lit s.data

def rdig : Rx := Rx.cls Char.isDigit

def rwsp : Rx := Rx.cls Char.isWhitespace

def rplus (r : Rx) : Rx := Rx.seq r (Rx.star r)

/-- Greedy `r{0,n}` as a chain of nested options. -/
def roptChain (r : Rx) : Nat → Rx
  | 0 => Rx.eps
  | n + 1 => Rx.opt (Rx.seq r (roptChain r n))

/-- Greedy bounded repetition `r{lo,hi}`. -/
def rrep (r : Rx) (lo hi : Nat) : Rx :=
  rseq ((List.replicate lo r) ++ [roptChain r (hi - lo)])

def rchars (cs : List Char) : Rx := Rx.cls (fun c => cs.contains c)

/-! ## `FINANCIAL_PATTERNS` (the compiled regexes the code actually uses).

All searches below run on a lowered copy of the text, which models the
`re.IGNORECASE` flag of the corresponding Python patterns; patterns
without letters are unaffected.  The `amount`, `account`, `phone` and
`email` entries of `FINANCIAL_PATTERNS` are never used by the code and
are not modelled. -/

def isLowerAlnum (c : Char) : Bool := isLowerAlpha c || c.isDigit

/-- `transaction_indicators`: `\b(debited|credited|...)\b`. -/
def txIndicatorWords : List String :=
  ["debited", "credited", "paid", "sent", "received", "transfer", "recharge",
   "withdrawn", "billed", "utilized", "charged", "repayment", "emi", "purchase"]

def txIndicatorsRx : Rx :=
  rseq [Rx.bnd, ralt (txIndicatorWords.map rstr), Rx.bnd]

/-- `reference`: `\b(?:ref|txn|trans|upi|trf|id|crn|urn)[:\-]?\s*[a-z0-9]{5,20}\b`. -/
def refRx : Rx :=
  rseq [Rx.bnd, ralt (["ref", "txn", "trans", "upi", "trf", "id", "crn", "urn"].map rstr),
        Rx.opt (rchars [':', '-']), Rx.star rwsp, rrep (Rx.cls isLowerAlnum) 5 20, Rx.bnd]

/-- The amount part of the `balance` pattern:
`(\d{1,3}(?:[.,]\d{3})*(?:[.,]\d{1,2})?)` (group 2). -/
def balAmountRx : Rx :=
  rseq [rrep rdig 1 3, Rx.star (rseq [rchars ['.', ','], rrep rdig 3 3]),
        Rx.opt (rseq [rchars ['.', ','], rrep rdig 1 2])]

/-- `balance`:
`(?:bal(?:ance)?|avail(?:able)?)(?:[:\-]|\s+of|\s+is)?\s*(rs|inr|usd|aed|eur)?\s*(amount)`. -/
def balanceRx : Rx :=
  rseq [ralt [Rx.seq (rstr "bal") (Rx.opt (rstr "ance")),
              Rx.seq (rstr "avail") (Rx.opt (rstr "able"))],
        Rx.opt (ralt [rchars [':', '-'],
                      Rx.seq (rplus rwsp) (rstr "of"),
                      Rx.seq (rplus rwsp) (rstr "is")]),
        Rx.star rwsp,
        Rx.opt (Rx.grp 1 (ralt (["rs", "inr", "usd", "aed", "eur"].map rstr))),
        Rx.star rwsp,
        Rx.grp 2 balAmountRx]

/-- `date_compact`: `(\d{1,2})([a-z]{3})(\d{2,4})`. -/
def dateCompactRx : Rx :=
  rseq [Rx.grp 1 (rrep rdig 1 2), Rx.grp 2 (rrep (Rx.cls isLowerAlpha) 3 3),
        Rx.grp 3 (rrep rdig 2 4)]

/-- `date_standard`: `(\d{1,2}) SEP (\d{1,2}) SEP (\d{2,4})` where SEP is
the class of dash, slash and dot. -/
def dateStandardRx : Rx :=
  rseq [Rx.grp 1 (rrep rdig 1 2), rchars ['-', '/', '.'],
        Rx.grp 2 (rrep rdig 1 2), rchars ['-', '/', '.'],
        Rx.grp 3 (rrep rdig 2 4)]

/-- `date_verbose` (also the inline pattern of `extract_date` step 5):
`(\d{1,2})\s+([a-z]{3,9})\s+(\d{4})`. -/
def dateVerboseRx : Rx :=
  rseq [Rx.grp 1 (rrep rdig 1 2), rplus rwsp,
        Rx.grp 2 (rrep (Rx.cls isLowerAlpha) 3 9), rplus rwsp,
        Rx.grp 3 (rrep rdig 4 4)]

/-- The inline amount pattern of `extract_amount` step 1:
`(\d{1,3}(?:,\d{3})*(?:\.\d{1,2})?|\d+\.\d{1,2}|\d+)`. -/
def stage1AmountRx : Rx :=
  ralt [rseq [rrep rdig 1 3, Rx.star (rseq [rstr ",", rrep rdig 3 3]),
              Rx.opt (rseq [rstr ".", rrep rdig 1 2])],
        rseq [rplus rdig, rstr ".", rrep rdig 1 2],
        rplus rdig]

/-- The inline pattern of `extract_amount` step 3:
`(?:rs\.?\s*|inr\s*)(\d{1,3}(?:,\d{3})*(?:\.\d{1,2})?)\b`. -/
def rsInrRx : Rx :=
  rseq [ralt [rseq [rstr "rs", Rx.opt (rstr "."), Rx.star rwsp],
              rseq [rstr "inr", Rx.star rwsp]],
        Rx.grp 1 (rseq [rrep rdig 1 3, Rx.star (rseq [rstr ",", rrep rdig 3 3]),
                        Rx.opt (rseq [rstr ".", rrep rdig 1 2])]),
        Rx.bnd]

/-! ## `TRANSACTION_CATEGORIES`, provider tables, blacklist, currencies -/

/-- Per-category configuration; `Option` fields model the presence of
the corresponding dictionary key in the Python table.  The loan
category's providers form a dict (provider → aliases); insurance and
recharge carry flat provider lists (used only by `extract_merchant`). -/
structure CatConfig where
  keywords : List String
  contextPhrases : Option (List Rx)
  providersDict : Option (List (String × List String))
  providersList : Option (List String)
  exceptions : List String

def loanContextPhrases : List Rx :=
  [rseq [rstr "repay", rplus rwsp, Rx.opt (ralt [rstr "rs", rstr "inr"]),
         Rx.star rwsp, rplus rdig, Rx.opt (rstr "."), Rx.star rdig],
   rseq [rstr "credit", rplus rwsp, rstr "score"],
   rseq [rstr "slice", rplus rwsp, rstr "app"],
   rseq [rstr "airtel", rplus rwsp, rstr "black", rplus rwsp, rstr "id"],
   rseq [rstr "emi", rplus rwsp, rstr "for"],
   rseq [rstr "due", rplus rwsp, rstr "date"]]

def loanProviders : List (String × List String) :=
  [("slice", ["slice", "pluxee"]),
   ("airtel", ["airtel black", "airtel payments bank"]),
   ("hdfc", ["hdfc credit", "hdfc bank credit"]),
   ("icici", ["icici credit", "icici bank credit"]),
   ("kotak", ["kotak credit", "kotak 811"]),
   ("cred", ["cred", "cRED"]),
   ("lazyPay", ["lazypay", "lazy pay"]),
   ("sbi", ["sbi credit", "state bank credit"])]

def loanConfig : CatConfig :=
  { keywords := ["loan", "emi", "equated monthly installment", "repayment",
                 "disbursement", "borrow", "lend", "credit limit", "credit line",
                 "credit score", "creditline", "pre-approved", "sanctioned",
                 "borrow limit", "loan a/c", "loan account"],
    contextPhrases := some loanContextPhrases,
    providersDict := some loanProviders,
    providersList := none,
    exceptions := [] }

def creditConfig : CatConfig :=
  { keywords := ["credited", "received", "load", "added", "topped up", "deposit",
                 "income", "salary", "recredited", "refund", "reversal", "cashback",
                 "interest", "bonus", "credit", "reimbursed", "transfer received",
                 "funds added", "amount credited", "deposit successful"],
    contextPhrases := none, providersDict := none, providersList := none,
    exceptions := ["reversal of credit", "credit card payment", "credit score",
                   "credit limit", "credit line", "creditline"] }

def debitConfig : CatConfig :=
  { keywords := ["debited", "spent", "withdrawn", "paid", "sent", "deducted",
                 "purchase", "billed", "used", "withdrew", "transfer", "payment",
                 "utilized", "charged", "reversal", "outstanding", "minimum due",
                 "past due", "overdue", "amount debited", "transaction successful"],
    contextPhrases := none, providersDict := none, providersList := none,
    exceptions := ["reversal of debit", "credit card payment", "emi payment"] }

def investmentConfig : CatConfig :=
  { keywords := ["mf", "mutual fund", "sip", "stock", "equity", "investment",
                 "portfolio", "groww", "coin", "zerodha", "upstox", "mf red",
                 "mutualfund", "investment account"],
    contextPhrases := some
      [rseq [rstr "mf", rplus rwsp, rstr "investment"],
       rseq [rstr "sip", rplus rwsp, rstr "on"],
       rseq [rstr "stock", rplus rwsp, rstr "purchased"]],
    providersDict := none, providersList := none, exceptions := [] }

def insuranceConfig : CatConfig :=
  { keywords := ["insurance", "premium", "policy", "claim", "renewal", "term plan",
                 "health insurance", "life insurance", "car insurance", "bike insurance"],
    contextPhrases := none, providersDict := none,
    providersList := some ["lic", "bharti axa", "hdfc ergo", "icici lombard", "tata aig"],
    exceptions := [] }

def emiConfig : CatConfig :=
  { keywords := ["emi", "equated monthly installment", "installment", "emi payment",
                 "emi due", "emi processed", "emi debited"],
    contextPhrases := some
      [rseq [rstr "emi", rplus rwsp, rstr "for", rplus rwsp, rplus (Rx.cls isWordChar)],
       rseq [rstr "emi", rplus rwsp, rstr "processed", rplus rwsp, rstr "for"]],
    providersDict := none, providersList := none, exceptions := [] }

def rechargeConfig : CatConfig :=
  { keywords := ["recharge", "topup", "top-up", "validity", "mobile recharge",
                 "dth recharge", "data pack", "voice plan", "renewal"],
    contextPhrases := none, providersDict := none,
    providersList := some ["airtel", "jio", "vi", "vodafone", "idea", "bsnl", "reliance"],
    exceptions := [] }

def atmConfig : CatConfig :=
  { keywords := ["atm", "cash withdrawal", "cash withdraw", "withdrawn at atm",
                 "atm transaction", "atm withdrawal"],
    contextPhrases := none, providersDict := none, providersList := none,
    exceptions := [] }

def chequeConfig : CatConfig :=
  { keywords := ["cheque", "check", "cheque deposit", "cheque cleared",
                 "cheque bounce", "cheque issued"],
    contextPhrases := none, providersDict := none, providersList := none,
    exceptions := [] }

def informationalConfig : CatConfig :=
  { keywords := ["balance", "fund balance", "security balance", "portfolio", "update",
                 "notification", "alert", "reminder", "promotional", "offer", "deal",
                 "price", "rate", "buy", "sell", "investment opportunity", "market update"],
    contextPhrases := none, providersDict := none, providersList := none,
    exceptions := ["debited", "credited", "paid", "sent", "received", "transfer",
                   "recharge", "withdrawn", "billed", "utilized", "charged",
                   "repayment", "emi"] }

/-- The category table, in Python dict insertion order. -/
def TRANSACTION_CATEGORIES : List (String × CatConfig) :=
  [("loan", loanConfig), ("credit", creditConfig), ("debit", debitConfig),
   ("investment", investmentConfig), ("insurance", insuranceConfig),
   ("emi", emiConfig), ("recharge", rechargeConfig), ("atm", atmConfig),
   ("cheque", chequeConfig), ("informational", informationalConfig)]

/-- `MERCHANT_BLACKLIST` (a Python set; membership is all that matters). -/
def MERCHANT_BLACKLIST : List String :=
  ["bank", "account", "a/c", "savings", "current", "balance", "available",
   "wallet", "upi", "refno", "reference", "id", "user", "app", "details",
   "call", "if not", "not you", "please", "contact", "customer care",
   "mobile", "recharge", "validity", "prepaid", "postpaid", "plan",
   "transaction", "amount", "rs", "inr", "usd", "aed", "eur", "date",
   "time", "location", "terminal", "pos", "card", "credit", "debit",
   "payment", "transfer", "to", "from", "at", "on", "for", "your",
   "acc", "xxx", "xx", "xxxx", "****", "cardnumber", "crd", "crdno",
   "cardno", "card number", "cvv", "expiry", "exp", "valid", "thru",
   "thru date", "mm/yy", "thank", "thanks", "regards", "team", "banking",
   "online", "sms", "message", "alert", "notification", "service",
   "charges", "fund", "securities", "bal", "reported", "excludes"]

/-- `CURRENCY_CODES`, in Python dict insertion order. -/
def CURRENCY_CODES : List (String × String) :=
  [("rs", "INR"), ("inr", "INR"), ("₹", "INR"),
   ("usd", "USD"), ("$", "USD"), ("dollars", "USD"),
   ("aed", "AED"), ("dirhams", "AED"),
   ("eur", "EUR"), ("€", "EUR"), ("euros", "EUR"),
   ("gbp", "GBP"), ("£", "GBP"), ("pounds", "GBP"),
   ("sgd", "SGD"), ("singapore dollars", "SGD"),
   ("jpy", "JPY"), ("¥", "JPY"), ("yen", "JPY")]

/-! ## The linguistic analyzer as an external capability

The spec treats the spaCy model as an external collaborator that
returns tokens (text, lemma, part of speech, like-num flag, entity
type), entity spans and noun chunks.  It is modelled as an opaque
function from text to such a document and passed as a parameter;
nothing is assumed about its output. -/

structure SpacyToken where
  text : String
  lemma_ : String
  pos_ : String
  likeNum : Bool
  entType : String
  deriving DecidableEq, Repr

structure SpacyEnt where
  label : String
  text : String
  startChar : Nat
  deriving DecidableEq, Repr

/-- A noun chunk: its tokens' texts, the index (into the document's
token list) of its root's head token, and the root's dependency tag. -/
structure SpacyChunk where
  tokenTexts : List String
  rootHeadIdx : Nat
  rootDep : String
  deriving DecidableEq, Repr

structure NlpDoc where
  tokens : List SpacyToken
  ents : List SpacyEnt
  chunks : List SpacyChunk
  deriving DecidableEq, Repr

/-- The process-wide, read-only analyzer (`nlp` in the source). -/
abbrev Nlp := List Char → NlpDoc

/-- An analyzer that returns an empty analysis for every text — a
legitimate instance of the capability interface. -/
def emptyNlp : Nlp := fun _ => ⟨[], [], []⟩

/-! ## Python `datetime` model

Python `datetime` objects always satisfy `MINYEAR (1) ≤ year ≤ MAXYEAR
(9999)`, `1 ≤ month ≤ 12`, `1 ≤ day ≤ 31`; the invariants are carried
in the structure.  `strftime("%Y-%m-%d")` is modelled as on the
program's platform (CPython on glibc): month and day zero-padded to
two digits, but the year rendered as plain unpadded decimal digits, so
years below 1000 print with fewer than four digits.  Day arithmetic
(`timedelta` addition, which can raise `OverflowError` at the range
ends) is an external capability `DtLib`, `none` modelling the raised
overflow. -/

structure PyDateTime where
  year : Nat
  month : Nat
  day : Nat
  hy : 1 ≤ year ∧ year ≤ 9999
  hm : 1 ≤ month ∧ month ≤ 12
  hd : 1 ≤ day ∧ day ≤ 31

structure DtLib where
  addDays : PyDateTime → Int → Option PyDateTime

instance : DecidableEq PyDateTime := fun a b =>
  if h : a.year = b.year ∧ a.month = b.month ∧ a.day = b.day then
    isTrue (by cases a; cases b; simp_all)
  else
    isFalse (by intro hc; cases hc; simp at h)

/-- `dt + timedelta(days=n)` never overflows; usable as a concrete `DtLib`. -/
def dtKeep : DtLib := ⟨fun d _ => some d⟩

def isLeap (y : Nat) : Bool := y % 4 == 0 && (y % 100 != 0 || y % 400 == 0)

def daysInMonth (y m : Nat) : Nat :=
  if m = 2 then (if isLeap y then 29 else 28)
  else if m = 4 ∨ m = 6 ∨ m = 9 ∨ m = 11 then 30
  else 31

theorem daysInMonth_le (y m : Nat) : daysInMonth y m ≤ 31 := by
  unfold daysInMonth
  split
  · split <;> omega
  · split <;> omega

/-- `datetime(year, month, day)` (raises `ValueError` outside the valid range). -/
def mkDate (y m d : Nat) : Option PyDateTime :=
  if h : 1 ≤ y ∧ y ≤ 9999 ∧ 1 ≤ m ∧ m ≤ 12 ∧ 1 ≤ d ∧ d ≤ daysInMonth y m then
    some ⟨y, m, d, ⟨h.1, h.2.1⟩, ⟨h.2.2.1, h.2.2.2.1⟩,
          ⟨h.2.2.2.2.1, le_trans h.2.2.2.2.2 (daysInMonth_le y m)⟩⟩
  else none

/-- `%d` of `_strptime` (two-digit-at-most day, 1–31; "0"/"00" rejected). -/
def parseDay2 (s : List Char) : Option Nat :=
  if (s.length = 1 ∨ s.length = 2) ∧ s.all Char.isDigit then
    let v := natOfDigits s
    if 1 ≤ v ∧ v ≤ 31 then some v else none
  else none

/-- `%m` of `_strptime` (numeric month, 1–12). -/
def parseMonth2 (s : List Char) : Option Nat :=
  if (s.length = 1 ∨ s.length = 2) ∧ s.all Char.isDigit then
    let v := natOfDigits s
    if 1 ≤ v ∧ v ≤ 12 then some v else none
  else none

/-- `%Y` of `_strptime` (exactly four digits). -/
def parseYear4 (s : List Char) : Option Nat :=
  if s.length = 4 ∧ s.all Char.isDigit then some (natOfDigits s) else none

/-- `%b` month abbreviations (matched case-insensitively; input lowered). -/
def monthAbbrs : List (String × Nat) :=
  [("jan", 1), ("feb", 2), ("mar", 3), ("apr", 4), ("may", 5), ("jun", 6),
   ("jul", 7), ("aug", 8), ("sep", 9), ("oct", 10), ("nov", 11), ("dec", 12)]

/-- `%B` full month names. -/
def monthFulls : List (String × Nat) :=
  [("january", 1), ("february", 2), ("march", 3), ("april", 4), ("may", 5),
   ("june", 6), ("july", 7), ("august", 8), ("september", 9), ("october", 10),
   ("november", 11), ("december", 12)]

def lookupStr (table : List (String × Nat)) (s : List Char) : Option Nat :=
  table.findSome? fun (k, v) => if k.data = s then some v else none

/-- `datetime.strptime(f"{d} {m} {y}", "%d %b %Y")` (month abbreviation). -/
def strptimeDbY (d m y : List Char) : Option PyDateTime := do
  let dd ← parseDay2 d
  let mm ← lookupStr monthAbbrs (pyLower m)
  let yy ← parseYear4 y
  mkDate yy mm dd

/-- `datetime.strptime(f"{d} {m} {y}", "%d %B %Y")` (full month name). -/
def strptimeDBY (d m y : List Char) : Option PyDateTime := do
  let dd ← parseDay2 d
  let mm ← lookupStr monthFulls (pyLower m)
  let yy ← parseYear4 y
  mkDate yy mm dd

/-- `datetime.strptime(f"{p0} {p1} {p2}", "%d %m %Y")` (numeric fields). -/
def strptimeNums (d m y : List Char) : Option PyDateTime := do
  let dd ← parseDay2 d
  let mm ← parseMonth2 m
  let yy ← parseYear4 y
  mkDate yy mm dd

def pad2 (n : Nat) : List Char := [digitChar (n / 10), digitChar n]

def pad4 (n : Nat) : List Char :=
  [digitChar (n / 1000), digitChar (n / 100), digitChar (n / 10), digitChar n]

/-- The year as rendered by glibc `strftime("%Y")` for the valid
`datetime` range 1..9999: the unpadded decimal digits (years below
1000 print with fewer than four digits on the program's platform). -/
def yearDigits (y : Nat) : List Char :=
  if y < 10 then [digitChar y]
  else if y < 100 then [digitChar (y / 10), digitChar y]
  else if y < 1000 then [digitChar (y / 100), digitChar (y / 10), digitChar y]
  else pad4 y

/-- `strftime("%Y-%m-%d")` on glibc: unpadded year, two-digit
zero-padded month and day. -/
def fmtDate (d : PyDateTime) : String :=
  String.mk (yearDigits d.year ++ '-' :: pad2 d.month ++ '-' :: pad2 d.day)

/-! ## `extract_date`

Every return site of the Python function formats through
`strftime("%Y-%m-%d")`; the steps are therefore factored through
`Option PyDateTime` with a single `fmtDate` at the end of each branch.
The relative-date step is the only one that can raise (`OverflowError`
from `timedelta` addition at the range ends), hence its `Except`. -/

/-- `relative_dates`, in dict insertion order. -/
def relativeDates : List (String × Int) :=
  [("today", 0), ("yesterday", -1), ("tomorrow", 1), ("now", 0),
   ("just now", 0), ("a moment ago", 0)]

def dateRelStep (dt : DtLib) (now : PyDateTime) (tl : List Char)
    (ts : Option PyDateTime) : Option (Except String String) :=
  relativeDates.findSome? fun (w, off) =>
    if containsSub tl w.data then
      some (match dt.addDays (ts.getD now) off with
            | some d => Except.ok (fmtDate d)
            | none => Except.error "date value out of range")
    else none

/-- Step 2: compact dates (`15May25`) with the 2-digit-year pivot at 50. -/
def dateCompactStep (tl : List Char) : Option PyDateTime :=
  match rxSearch dateCompactRx tl with
  | none => none
  | some (_, _, caps) =>
    let day := capSlice tl caps 1
    let mon := capSlice tl caps 2
    let year0 := capSlice tl caps 3
    let year := if year0.length = 2 then
        (if natOfDigits year0 < 50 then '2' :: '0' :: year0 else '1' :: '9' :: year0)
      else year0
    strptimeDbY day mon year

/-- Step 3: standard numeric dates.  The six formats collapse to
day-month-year then month-day-year (each listed twice in the source);
the two dot-separated formats can never parse the space-joined field
string and are dead.  The 2-digit-year transform happens before the
first parse attempt. -/
def dateStandardStep (tl : List Char) : Option PyDateTime :=
  match rxSearch dateStandardRx tl with
  | none => none
  | some (_, _, caps) =>
    let p0 := capSlice tl caps 1
    let p1 := capSlice tl caps 2
    let p2raw := capSlice tl caps 3
    let p2 := if p2raw.length = 2 then
        (if natOfDigits p2raw < 50 then '2' :: '0' :: p2raw else '1' :: '9' :: p2raw)
      else p2raw
    match strptimeNums p0 p1 p2 with
    | some d => some d
    | none => strptimeNums p1 p0 p2

/-- Step 4: verbose dates (`15 May 2025`), full month name then abbreviation. -/
def dateVerboseStep (tl : List Char) : Option PyDateTime :=
  match rxSearch dateVerboseRx tl with
  | none => none
  | some (_, _, caps) =>
    let day := capSlice tl caps 1
    let mon := capSlice tl caps 2
    let year := capSlice tl caps 3
    match strptimeDBY day mon year with
    | some d => some d
    | none => strptimeDbY day mon year

def dateIndicatorWords : List String := ["on", "date", "for", "by", "at"]

/-- Step 5: date-indicator word followed within 30 characters by a
verbose-style date, parsed with the month-abbreviation format only. -/
def dateIndicatorStep (tl : List Char) : Option PyDateTime :=
  dateIndicatorWords.findSome? fun ind =>
    match subIdx tl ind.data with
    | none => none
    | some pos =>
      let cand := sliceL tl (pos + ind.length) (pos + ind.length + 30)
      match rxSearch dateVerboseRx cand with
      | none => none
      | some (_, _, caps) =>
        strptimeDbY (capSlice cand caps 1) (capSlice cand caps 2) (capSlice cand caps 3)

def extract_date (dt : DtLib) (now : PyDateTime) (text : List Char)
    (ts : Option PyDateTime) : Except String String :=
  let tl := pyLower text
  match dateRelStep dt now tl ts with
  | some r => r
  | none =>
    Except.ok (match dateCompactStep tl <|> dateStandardStep tl <|>
                     dateVerboseStep tl <|> dateIndicatorStep tl with
               | some d => fmtDate d
               | none => fmtDate (ts.getD now))

/-! ## `is_transactional_message` -/

def transactionVerbs : List String :=
  ["pay", "send", "transfer", "spend", "use", "purchase", "withdraw", "recharge"]

def amountIndicatorsTx : List String :=
  ["by", "of", "for", "rs", "inr", "amount", "charged"]

/-- Check 3 of `is_transactional_message`: an amount-indicator word
followed within 30 characters by the amount regex
`\d{1,3}(?:[.,]\d{3})*(?:[.,]\d{1,2})?`; since every part of that
pattern beyond a single digit is optional, its `re.search` succeeds
exactly when the context window contains a digit. -/
def amountContextCheck (tl : List Char) : Bool :=
  amountIndicatorsTx.any fun ind =>
    match subIdx tl ind.data with
    | some base =>
      let pos := base + ind.length
      decide (pos < tl.length) && (sliceL tl pos (pos + 30)).any Char.isDigit
    | none => false

def is_transactional_message (nlp : Nlp) (text : List Char) : Bool :=
  let tl := pyLower text
  if (rxSearch txIndicatorsRx tl).isSome then true
  else if (nlp tl).tokens.any
      (fun t => transactionVerbs.contains t.lemma_ && t.pos_ == "VERB") then true
  else if amountContextCheck tl then true
  else (rxSearch refRx tl).isSome

/-! ## `detect_category` -/

/-- The classifier's text normalization:
`re.sub(r"[^\w\s]", " ", text.lower())` then whitespace collapse and strip. -/
def normalizeText (text : List Char) : List Char :=
  stripWs (collapseWs ((pyLower text).map fun c =>
    if isWordChar c || c.isWhitespace then c else ' '))

/-- Step 2: the specialized-category scan.  Note that when a category
is configured with context phrases and none of them matches, control
falls through to the final `return category, "", 0.85` of the
keyword-hit block. -/
def scanSpecialized (tl : List Char) : Option (String × String × ℚ) :=
  TRANSACTION_CATEGORIES.findSome? fun (cat, cfg) =>
    if cat = "credit" ∨ cat = "debit" ∨ cat = "informational" then none
    else
      cfg.keywords.findSome? fun kw =>
        if containsSub tl kw.data then
          some (match cfg.contextPhrases with
            | some phrases =>
              if phrases.any (fun p => (rxSearch p tl).isSome) then
                if cat = "loan" then
                  match cfg.providersDict with
                  | some provs =>
                    (match provs.findSome? (fun (prov, aliases) =>
                        aliases.findSome? fun al =>
                          if containsSub tl al.data then some prov else none) with
                     | some prov => (cat, prov, mkRat 95 100)
                     | none => (cat, "", mkRat 90 100))
                  | none => (cat, "", mkRat 90 100)
                else (cat, "", mkRat 90 100)
              else (cat, "", mkRat 85 100)
            | none => (cat, "", mkRat 85 100))
        else none

/-- Step 3: the dedicated loan re-check. -/
def loanRecheck (tl : List Char) : Option (String × String × ℚ) :=
  loanConfig.keywords.findSome? fun kw =>
    if containsSub tl kw.data then
      if loanContextPhrases.any (fun p => (rxSearch p tl).isSome) then
        some (match loanProviders.findSome? (fun (prov, aliases) =>
                aliases.findSome? fun al =>
                  if containsSub tl al.data then some prov else none) with
              | some prov => ("loan", prov, mkRat 95 100)
              | none => ("loan", "generic", mkRat 90 100))
      else none
    else none

/-- Step 4: the credit scan (the exception check does not depend on
the keyword, but the source re-runs it per keyword hit). -/
def creditScan (tl : List Char) : Option (String × String × ℚ) :=
  creditConfig.keywords.findSome? fun kw =>
    if containsSub tl kw.data then
      if ¬ creditConfig.exceptions.any (fun e => containsSub tl e.data) then
        some (if containsSub tl "emi".data ∧ containsSub tl "credit".data then
                ("emi", "credit", mkRat 85 100)
              else ("credit", "", mkRat 80 100))
      else none
    else none

/-- Step 5: the debit scan with payment-channel subcategories. -/
def debitScan (tl : List Char) : Option (String × String × ℚ) :=
  debitConfig.keywords.findSome? fun kw =>
    if containsSub tl kw.data then
      if ¬ debitConfig.exceptions.any (fun e => containsSub tl e.data) then
        some (if containsSub tl "emi".data then ("emi", "debit", mkRat 85 100)
              else if containsSub tl "upi".data then ("debit", "upi", mkRat 80 100)
              else if containsSub tl "atm".data then ("debit", "atm", mkRat 80 100)
              else if containsSub tl "pos".data ∨ containsSub tl "swipe".data then
                ("debit", "pos", mkRat 80 100)
              else ("debit", "general", mkRat 75 100))
      else none
    else none

def detect_category (nlp : Nlp) (text : List Char) : String × String × ℚ :=
  let tl := normalizeText text
  if ¬ is_transactional_message nlp text then ("informational", "general", mkRat 95 100)
  else
    match scanSpecialized tl with
    | some r => r
    | none =>
      match loanRecheck tl with
      | some r => r
      | none =>
        match creditScan tl with
        | some r => r
        | none =>
          match debitScan tl with
          | some r => r
          | none => ("debit", "general", mkRat 70 100)

/-- The classifier with the loan re-check (step 3) removed — the
variant the refinement claim C9 compares against. -/
def detect_categoryNoLoanRecheck (nlp : Nlp) (text : List Char) : String × String × ℚ :=
  let tl := normalizeText text
  if ¬ is_transactional_message nlp text then ("informational", "general", mkRat 95 100)
  else
    match scanSpecialized tl with
    | some r => r
    | none =>
      match creditScan tl with
      | some r => r
      | none =>
        match debitScan tl with
        | some r => r
        | none => ("debit", "general", mkRat 70 100)

/-! ## `extract_amount` -/

structure MonetaryAmount where
  value : ℚ
  currency : String
  formatted : String
  deriving DecidableEq, Repr

def amountIndicators : List String :=
  ["by", "of", "for", "rs", "inr", "amount", "charged", "debited", "credited"]

def isAmtTerminator (c : Char) : Bool :=
  c.isWhitespace || c == '.' || c == ',' || c == ')' || c == ']' || c == '\x7d'

def isAcctMarker (c : Char) : Bool := c == 'X' || c == 'x' || c == '#'

/-- One iteration of the step-1 indicator loop: the first regex match
in the 30-character window after the indicator's first occurrence,
subjected to the range check, the account-number-marker check on the
preceding character and the terminator check on the following
character.  A rejected candidate makes the loop `continue` to the next
indicator without retrying later matches of the same window. -/
def stage1Candidate (text tl : List Char) (ind : String) : Option (ℚ × Nat) :=
  match subIdx tl ind.data with
  | none => none
  | some base =>
    let pos := base + ind.length
    let ctx := sliceL text pos (pos + 30)
    match rxSearch stage1AmountRx ctx with
    | none => none
    | some (mst, men, _) =>
      match parseFloat (stripCommas (sliceL ctx mst men)) with
      | none => none
      | some amount =>
        if 1 ≤ amount ∧ amount ≤ 10000000 then
          let actualPos := pos + mst
          let prevBad := decide (0 < actualPos) &&
            (match text.get? (actualPos - 1) with
             | some c => isAcctMarker c
             | none => false)
          let nextBad :=
            match text.get? (actualPos + (men - mst)) with
            | some c => ! isAmtTerminator c
            | none => false
          if prevBad then none
          else if nextBad then none
          else some (amount, actualPos)
        else none

/-- `l.sort(key)` followed by `l[0]`: the element with the least key,
earliest-appended on ties (Python's sort is stable). -/
def pickEarliestBy {α : Type} (key : α → Nat) (l : List α) : Option α :=
  l.foldl (fun acc x =>
    match acc with
    | none => some x
    | some a => if key x < key a then some x else some a) none

/-- First currency token found in the text, in table order, else INR. -/
def resolveCurrency (tl : List Char) : String :=
  (CURRENCY_CODES.findSome? fun p =>
    if containsSub tl p.1.data then some p.2 else none).getD "INR"

def mkMoney (code : String) (v : ℚ) : MonetaryAmount :=
  ⟨v, code, formatMoney code v⟩

def cleanEntityAmount (s : List Char) : List Char :=
  s.filter fun c => c.isDigit || c == '.'

def removeFirstDot (s : List Char) : List Char :=
  match subIdx s ['.'] with
  | some i => s.take i ++ s.drop (i + 1)
  | none => s

/-- Step 2: MONEY entities whose preceding 50 characters contain an
indicator word. -/
def stage2Money (ndoc : NlpDoc) (tl : List Char) : Option MonetaryAmount :=
  ndoc.ents.findSome? fun ent =>
    if ent.label = "MONEY" then
      let ctx := sliceL tl (ent.startChar - 50) ent.startChar
      if amountIndicators.any (fun ind => containsSub ctx ind.data) then
        let clean := cleanEntityAmount ent.text.data
        let check := removeFirstDot clean
        if check ≠ [] ∧ check.all Char.isDigit then
          match parseFloat clean with
          | some amount =>
            if 1 ≤ amount ∧ amount ≤ 10000000 then
              some (mkMoney (resolveCurrency tl) amount)
            else none
          | none => none
        else none
      else none
    else none

/-- Step 3: the currency-prefixed regex scan. -/
def stage3Scan (tl : List Char) : Option MonetaryAmount :=
  match rxSearch rsInrRx tl with
  | some (_, _, caps) =>
    match parseFloat (stripCommas (capSlice tl caps 1)) with
    | some amount =>
      if 1 ≤ amount ∧ amount ≤ 10000000 then some (mkMoney (resolveCurrency tl) amount)
      else none
    | none => none
  | none => none

def isSingleAsciiLetter (s : List Char) : Bool :=
  match s with
  | [c] => isAsciiAlpha c
  | _ => false

/-- Step 4: number-like tokens not tagged DATE, skipping tokens whose
predecessor token is a single letter (`re.match` of a one-letter
anchored pattern). -/
def stage4Tokens (ndoc : NlpDoc) : Option MonetaryAmount :=
  ndoc.tokens.enum.findSome? fun p =>
    if p.2.likeNum && p.2.entType != "DATE" then
      match parseFloat (stripCommas p.2.text.data) with
      | none => none
      | some amount =>
        if decide (0 < p.1) &&
            (match ndoc.tokens.get? (p.1 - 1) with
             | some pt => isSingleAsciiLetter pt.text.data
             | none => false) then none
        else if 1 ≤ amount ∧ amount ≤ 10000000 then
          some ⟨amount, "INR", formatMoney "INR" amount⟩
        else none
    else none

/-- The step-1 candidate list (one candidate at most per indicator). -/
def stage1Candidates (text : List Char) : List (ℚ × Nat) :=
  amountIndicators.filterMap (stage1Candidate text (pyLower text))

def extract_amount (ndoc : NlpDoc) (text : List Char) : Option MonetaryAmount :=
  let tl := pyLower text
  match pickEarliestBy (fun c => c.2) (stage1Candidates text) with
  | some c => some (mkMoney (resolveCurrency tl) c.1)
  | none =>
    match stage2Money ndoc tl with
    | some m => some m
    | none =>
      match stage3Scan tl with
      | some m => some m
      | none => stage4Tokens ndoc

/-! ## `extract_balance` and `extract_reference` -/

def extract_balance (text : List Char) : Option MonetaryAmount :=
  let tl := pyLower text
  let balances := (rxFindAll balanceRx tl).filterMap
    fun (st, _, caps) =>
      let curr := match capGet caps 1 with
        | some ab => sliceL tl ab.1 ab.2
        | none => "INR".data
      (parseFloat (stripCommas (capSlice tl caps 2))).map fun amt => (amt, curr, st)
  match pickEarliestBy (fun b => b.2.2) balances with
  | some (amt, curr, _) =>
    let code := (CURRENCY_CODES.findSome? fun p =>
        if p.1.data = pyLower curr then some p.2 else none).getD
      (String.mk (pyUpper curr))
    some ⟨amt, code, formatMoney code amt⟩
  | none => none

/-- `re.sub` of colon-or-dash plus following whitespace to one space. -/
def cleanRefPunct : Bool → List Char → List Char
  | _, [] => []
  | skipWs, c :: rest =>
    if skipWs && c.isWhitespace then cleanRefPunct true rest
    else if c = ':' ∨ c = '-' then ' ' :: cleanRefPunct true rest
    else c :: cleanRefPunct false rest

/-- The source searches the original text under `re.IGNORECASE` and
uppercases the cleaned match; matching the lowered copy and slicing
from it yields the same final string. -/
def extract_reference (text : List Char) : Option String :=
  let tl := pyLower text
  match rxSearch refRx tl with
  | some (a, b, _) =>
    some (String.mk (pyUpper (stripWs (collapseWs (cleanRefPunct false (sliceL tl a b))))))
  | none => none

/-! ## `extract_merchant` -/

def nonNl : Rx := Rx.cls (fun c => c ≠ '\n')

/-- `on your ([a-zA-Z]+) App`, case-insensitively on the lowered text. -/
def onYourAppRx : Rx :=
  rseq [rstr "on your ", Rx.grp 1 (rplus (Rx.cls isLowerAlpha)), rstr " app"]

/-- `only on ([a-zA-Z]+)`. -/
def onlyOnRx : Rx :=
  rseq [rstr "only on ", Rx.grp 1 (rplus (Rx.cls isLowerAlpha))]

/-- The anchored institution pattern: a leading run of capitals and
whitespace before " on" (case-sensitive, original text). -/
def instRx : Rx :=
  rseq [Rx.grp 1 (rplus (Rx.cls (fun c => isUpperAlpha c || c.isWhitespace))), rstr " on"]

/-- The four UPI-transfer templates, capturing 3 to 30 characters of
letters, digits and whitespace. -/
def upiMerchantRxs : List Rx :=
  [rseq [rstr "trf", rplus rwsp, rstr "to", rplus rwsp,
         Rx.grp 1 (rrep (Rx.cls (fun c => isLowerAlnum c || c.isWhitespace)) 3 30)],
   rseq [rstr "sent", rplus rwsp, rstr "to", rplus rwsp,
         Rx.grp 1 (rrep (Rx.cls (fun c => isLowerAlnum c || c.isWhitespace)) 3 30)],
   rseq [rstr "paid", rplus rwsp, rstr "to", rplus rwsp,
         Rx.grp 1 (rrep (Rx.cls (fun c => isLowerAlnum c || c.isWhitespace)) 3 30)],
   rseq [rstr "transfer", rplus rwsp, rstr "to", rplus rwsp,
         Rx.grp 1 (rrep (Rx.cls (fun c => isLowerAlnum c || c.isWhitespace)) 3 30)]]

/-- Cleanup pattern `\s+Ref.*$` (case-sensitive; the unanchored `$`
matches at the end of the string or just before a final newline). -/
def refCutRx : Rx := rseq [rplus rwsp, rstr "Ref", Rx.star nonNl, Rx.eol]

/-- Cleanup pattern `\s+(?:UPI|ref|id|crn).*` (case-sensitive). -/
def upiCutRx : Rx :=
  rseq [rplus rwsp, ralt [rstr "UPI", rstr "ref", rstr "id", rstr "crn"], Rx.star nonNl]

/-- Step-4 noise pattern `\b(?:ref|id|user|upi|rs|inr|amount|charged)\b.*`
(case-insensitive). -/
def step4NoiseRx : Rx :=
  rseq [Rx.bnd, ralt (["ref", "id", "user", "upi", "rs", "inr", "amount", "charged"].map rstr),
        Rx.bnd, Rx.star nonNl]

/-- Delete the characters of `orig` that fall in any of the given spans. -/
def deleteSpansIn (orig : List Char) (spans : List (Nat × Nat)) : List Char :=
  orig.enum.filterMap fun p =>
    if spans.any (fun ab => ab.1 ≤ p.1 ∧ p.1 < ab.2) then none else some p.2

/-- `re.sub(pattern, "", s)` via the span list of all matches. -/
def rxDeleteAll (r : Rx) (s : List Char) : List Char :=
  deleteSpansIn s ((rxFindAll r s).map fun x => (x.1, x.2.1))

def merchantIndicators : List String :=
  ["to", "at", "from", "trf", "transfer", "recharge", "paid"]

def blacklisted (w : List Char) : Bool :=
  MERCHANT_BLACKLIST.any fun b => b.data = pyLower w

/-- `extract_merchant` step 1 (informational messages). -/
def merchantInfoStep (text tl : List Char) : Option String :=
  let appStep : Option String :=
    if containsSub tl "app".data ∨ containsSub tl "buy".data ∨ containsSub tl "sell".data then
      match rxSearch onYourAppRx tl with
      | some (_, _, caps) => some (String.mk (capSlice text caps 1 ++ ' ' :: "App".data))
      | none =>
        match rxSearch onlyOnRx tl with
        | some (_, _, caps) => some (String.mk (capSlice text caps 1 ++ ' ' :: "App".data))
        | none => none
    else none
  match appStep with
  | some r => some r
  | none =>
    if containsSub tl "balance".data ∨ containsSub tl "fund".data then
      match rxMatchAt instRx text 0 with
      | some (_, caps) => some (String.mk (stripWs (capSlice text caps 1)))
      | none => none
    else none

/-- `extract_merchant` step 3 (UPI debit templates). -/
def merchantUpiStep (text tl : List Char) : Option String :=
  upiMerchantRxs.findSome? fun r =>
    match rxSearch r tl with
    | some (_, _, caps) =>
      match capGet caps 1 with
      | some ab =>
        let m0 := stripWs (sliceL text ab.1 ab.2)
        let m1 := rxDeleteAll refCutRx m0
        let m2 := rxDeleteAll upiCutRx m1
        some (String.mk (titleL m2))
      | none => none
    | none => none

/-- `extract_merchant` step 4 (indicator words and blacklist filter). -/
def merchantGeneralStep (text tl : List Char) : Option String :=
  merchantIndicators.findSome? fun ind =>
    match subIdx tl ind.data with
    | none => none
    | some p =>
      let pos := p + ind.length
      if pos < text.length then
        let cand0 := sliceL text pos (pos + 50)
        let cand1 := deleteSpansIn cand0
          ((rxFindAll step4NoiseRx (pyLower cand0)).map fun x => (x.1, x.2.1))
        let cand2 := cand1.map fun c => if isWordChar c || c.isWhitespace then c else ' '
        let words := ((splitWs cand2).take 5).filterMap fun w =>
          if ¬ blacklisted w ∧ w.length > 1 then some (capitalizeL w) else none
        if words.isEmpty then none
        else some (String.mk (stripWs (joinSpace words)))
      else none

/-- `extract_merchant` step 5 (noun chunks attached to transaction verbs). -/
def merchantNlpStep (nlp : Nlp) (text : List Char) : Option String :=
  let doc := nlp text
  doc.tokens.enum.findSome? fun p =>
    if transactionVerbs.contains p.2.lemma_ && p.2.pos_ == "VERB" then
      doc.chunks.findSome? fun ch =>
        if ch.rootHeadIdx = p.1 ∧ (ch.rootDep = "dobj" ∨ ch.rootDep = "pobj") then
          let words := ch.tokenTexts.filterMap fun w =>
            if ¬ blacklisted w.data then some (capitalizeL w.data) else none
          if words.isEmpty then none else some (String.mk (joinSpace words))
        else none
    else none

def extract_merchant (nlp : Nlp) (text : List Char) (category subcategory : String) :
    Option String :=
  let tl := pyLower text
  if category = "informational" then merchantInfoStep text tl
  else if category = "loan" ∧ subcategory ≠ "generic" then
    some (String.mk (titleL subcategory.data ++ ' ' :: "Loan".data))
  else if category = "recharge" then
    match (rechargeConfig.providersList.getD []).findSome?
        (fun p => if containsSub tl p.data then some p else none) with
    | some p => some (String.mk (titleL p.data ++ ' ' :: "Recharge".data))
    | none => some "Mobile Recharge"
  else if category = "insurance" then
    match (insuranceConfig.providersList.getD []).findSome?
        (fun p => if containsSub tl p.data then some p else none) with
    | some p => some (String.mk (titleL p.data ++ ' ' :: "Insurance".data))
    | none => some "Insurance Premium"
  else if category = "investment" then
    match (["groww", "coin", "zerodha", "upstox", "mf utility"].findSome?
        (fun p => if containsSub tl (String.data p) then some p else none) :
        Option String) with
    | some p => some (String.mk (titleL p.data ++ ' ' :: "Investment".data))
    | none => some "Investment"
  else
    match (if category = "debit" ∧ subcategory = "upi" then merchantUpiStep text tl
           else none) with
    | some r => some r
    | none =>
      match merchantGeneralStep text tl with
      | some r => some r
      | none =>
        match merchantNlpStep nlp text with
        | some r => some r
        | none =>
          if containsSub tl "atm".data then some "ATM Withdrawal"
          else if containsSub tl "pos".data ∨ containsSub tl "swipe".data then
            some "Card Purchase"
          else if containsSub tl "cheque".data then some "Cheque Transaction"
          else some "Merchant"

/-! ## `parse_sms_spacy` -/

instance {ε α : Type} [DecidableEq ε] [DecidableEq α] : DecidableEq (Except ε α) :=
  fun a b =>
    match a, b with
    | Except.ok x, Except.ok y =>
      if h : x = y then isTrue (by rw [h]) else isFalse (by intro hc; cases hc; exact h rfl)
    | Except.error x, Except.error y =>
      if h : x = y then isTrue (by rw [h]) else isFalse (by intro hc; cases hc; exact h rfl)
    | Except.ok _, Except.error _ => isFalse (by intro hc; cases hc)
    | Except.error _, Except.ok _ => isFalse (by intro hc; cases hc)

/-- The output record.  Every key of the Python result dict is a
field (`parserTag` holds the "parser" key's fixed version string);
`Option` models a null value, and for the conditionally added keys
(`loan_provider`, `investment_platform`, `insurance_provider`,
`info_type`) the outer `Option` models key presence (the first three
can be present with a null value, hence the nested `Option`). -/
structure TransactionRecord where
  raw_text : String
  category : String
  subcategory : String
  amount : Option ℚ
  currency : Option String
  formatted_amount : Option String
  merchant : Option String
  date : String
  balance : Option MonetaryAmount
  reference : Option String
  description : String
  parserTag : String
  timestamp : String
  confidence : ℚ
  loan_provider : Option (Option String)
  investment_platform : Option (Option String)
  insurance_provider : Option (Option String)
  info_type : Option String
  deriving DecidableEq, Repr

/-- The orchestrator.  `now` models the `datetime.now()` read inside
`extract_date`; `nowIso` models the `datetime.now().isoformat()` read
for the processing-timestamp field (two distinct clock reads in the
source).  The only modelled internal fault is the day-arithmetic
overflow of the relative-date branch, wrapped like every in-`try`
exception by `SMSParseError(f"Universal SMS parsing failed: ...")`. -/
def parse_sms_spacy (nlp : Nlp) (dt : DtLib) (now : PyDateTime) (nowIso : String)
    (smsText : String) (ts : Option PyDateTime) : Except String TransactionRecord :=
  let text := smsText.data
  if stripWs text = [] then Except.error "Empty SMS content"
  else
    let cat3 := detect_category nlp text
    let category := cat3.1
    let subcategory := cat3.2.1
    let confidence := cat3.2.2
    let amount := if category ≠ "informational" then extract_amount (nlp text) text else none
    let merchant :=
      if category ≠ "informational" then extract_merchant nlp text category subcategory
      else none
    let reference := if category ≠ "informational" then extract_reference text else none
    match extract_date dt now text ts with
    | Except.error e => Except.error ("Universal SMS parsing failed: " ++ e)
    | Except.ok transactionDate =>
      let balance := extract_balance text
      let tl := pyLower text
      Except.ok
        { raw_text := smsText
          category := category
          subcategory := subcategory
          amount := amount.map (fun m => m.value)
          currency := amount.map (fun m => m.currency)
          formatted_amount := amount.map (fun m => m.formatted)
          merchant := merchant
          date := transactionDate
          balance := balance
          reference := reference
          description := smsText
          parserTag := "spacy_universal_v4"
          timestamp := nowIso
          confidence := confidence
          loan_provider :=
            if category = "loan" then
              some (if subcategory ≠ "generic" then some subcategory else merchant)
            else none
          investment_platform :=
            if category = "investment" then
              some (if subcategory ≠ "" then some subcategory else merchant)
            else none
          insurance_provider :=
            if category = "insurance" then
              some (if subcategory ≠ "" then some subcategory else merchant)
            else none
          info_type :=
            if category = "informational" then
              (if containsSub tl "price".data ∨ containsSub tl "rate".data then
                 some "market_update"
               else if containsSub tl "balance".data ∨ containsSub tl "fund".data then
                 some "balance_update"
               else if containsSub tl "offer".data ∨ containsSub tl "deal".data ∨
                   containsSub tl "buy".data then some "promotion"
               else none)
            else none }

end FinanceApp





namespace FinanceApp

/-! ## Concrete test fixtures used by the claim theorems -/

/-- The balance-alert scenario text of the spec. -/
def c1text : String := "Balance alert: Your savings account balance is Rs 45000"

/-- The account-number-guard scenario text of the spec. -/
def c7text : String := "Rs.5000 debited from A/c X6072"

/-- A concrete reference datetime (2025-06-10). -/
def now0 : PyDateTime := ⟨2025, 6, 10, by omega, by omega, by omega⟩

/-- Projection used to state determinism modulo the processing timestamp. -/
def eraseTimestamp (r : TransactionRecord) : TransactionRecord :=
  { r with timestamp := "" }

def isErr {ε α : Type} : Except ε α → Bool
  | Except.error _ => true
  | Except.ok _ => false

/-- The date-format predicate of the spec: the string matches the
anchored pattern of four digits, dash, two digits, dash, two digits. -/
def matchesYMD (s : String) : Bool :=
  match s.data with
  | [a, b, c, d, e, f, g, h, i, j] =>
    a.isDigit && b.isDigit && c.isDigit && d.isDigit && e == '-' &&
    f.isDigit && g.isDigit && h == '-' && i.isDigit && j.isDigit
  | _ => false

/-- The month/day tail of the relaxed date shape: dash, two month
digits, dash, two day digits, end. -/
def tailMDOk : List Char → Bool
  | ['-', m1, m2, '-', d1, d2] => m1.isDigit && m2.isDigit && d1.isDigit && d2.isDigit
  | _ => false

/-- The relaxed date shape the program actually guarantees: one to
four unpadded year digits, dash, two month digits, dash, two day
digits. -/
def matchesYMDRelaxed (s : String) : Bool :=
  let y := s.data.takeWhile Char.isDigit
  decide (1 ≤ y.length) && decide (y.length ≤ 4) && tailMDOk (s.data.drop y.length)

/-! ## Helper lemmas -/

theorem findSome?_some_ex {α β : Type} {f : α → Option β} :
    ∀ {l : List α} {b : β}, l.findSome? f = some b → ∃ a, a ∈ l ∧ f a = some b := by
  intro l
  induction l with
  | nil => intro b h; simp [List.findSome?] at h
  | cons a as ih =>
    intro b h
    rw [List.findSome?] at h
    split at h
    · rename_i v hfa
      exact ⟨a, List.mem_cons_self a as, by rw [hfa]; exact h⟩
    · obtain ⟨x, hx, hfx⟩ := ih h
      exact ⟨x, List.mem_cons_of_mem a hx, hfx⟩

theorem findSome?_none_all {α β : Type} {f : α → Option β} :
    ∀ {l : List α}, l.findSome? f = none → ∀ a, a ∈ l → f a = none := by
  intro l
  induction l with
  | nil => intro _ a ha; exact absurd ha (List.not_mem_nil a)
  | cons x xs ih =>
    intro h a ha
    rw [List.findSome?] at h
    split at h
    · exact absurd h (by simp)
    · rename_i hfx
      rcases List.mem_cons.mp ha with rfl | ha2
      · exact hfx
      · exact ih h a ha2

theorem findSome?_all_none {α β : Type} {f : α → Option β} :
    ∀ {l : List α}, (∀ a, a ∈ l → f a = none) → l.findSome? f = none := by
  intro l
  induction l with
  | nil => intro _; rfl
  | cons x xs ih =>
    intro h
    rw [List.findSome?, h x (List.mem_cons_self x xs)]
    exact ih fun a ha => h a (List.mem_cons_of_mem x ha)

theorem pickEarliestBy_mem_aux {α : Type} (key : α → Nat) :
    ∀ (l : List α) (acc : Option α) (x : α),
      l.foldl (fun acc x =>
        match acc with
        | none => some x
        | some a => if key x < key a then some x else some a) acc = some x →
      x ∈ l ∨ acc = some x := by
  intro l
  induction l with
  | nil => intro acc x h; exact Or.inr h
  | cons a as ih =>
    intro acc x h
    rw [List.foldl_cons] at h
    rcases ih _ x h with hm | hacc
    · exact Or.inl (List.mem_cons_of_mem a hm)
    · cases acc with
      | none =>
        exact Or.inl (by rw [← Option.some_inj.mp hacc]; exact List.mem_cons_self a as)
      | some v =>
        by_cases hk : key a < key v
        · rw [show (match some v with
              | none => some a
              | some w => if key a < key w then some a else some w) =
              if key a < key v then some a else some v from rfl, if_pos hk] at hacc
          exact Or.inl (by rw [← Option.some_inj.mp hacc]; exact List.mem_cons_self a as)
        · rw [show (match some v with
              | none => some a
              | some w => if key a < key w then some a else some w) =
              if key a < key v then some a else some v from rfl, if_neg hk] at hacc
          exact Or.inr hacc

theorem pickEarliestBy_mem {α : Type} (key : α → Nat) (l : List α) (x : α)
    (h : pickEarliestBy key l = some x) : x ∈ l := by
  rcases pickEarliestBy_mem_aux key l none x h with hm | hacc
  · exact hm
  · exact absurd hacc (by simp)

theorem digitChar_isDigit (n : Nat) : (digitChar n).isDigit = true := by
  unfold digitChar
  split <;> decide

theorem fmtDate_matchesYMDRelaxed (d : PyDateTime) :
    matchesYMDRelaxed (fmtDate d) = true := by
  have hdash : Char.isDigit '-' = false := rfl
  unfold fmtDate yearDigits matchesYMDRelaxed
  split
  · simp [List.takeWhile, pad2, digitChar_isDigit, hdash, tailMDOk]
  · split
    · simp [List.takeWhile, pad2, digitChar_isDigit, hdash, tailMDOk]
    · split
      · simp [List.takeWhile, pad2, digitChar_isDigit, hdash, tailMDOk]
      · simp [List.takeWhile, pad4, pad2, digitChar_isDigit, hdash, tailMDOk]

theorem fmtDate_matchesYMD_of_year_ge {d : PyDateTime} (h : 1000 ≤ d.year) :
    matchesYMD (fmtDate d) = true := by
  unfold fmtDate yearDigits
  rw [if_neg (by omega), if_neg (by omega), if_neg (by omega)]
  simp [matchesYMD, pad4, pad2, digitChar_isDigit]

theorem parseFloat_nonneg {s : List Char} {q : ℚ} (h : parseFloat s = some q) : 0 ≤ q := by
  unfold parseFloat at h
  split at h
  split at h
  · rw [ite_eq_iff] at h
    rcases h with ⟨-, h⟩ | ⟨-, h⟩
    · rw [← Option.some_inj.mp h, Rat.mkRat_eq_div]; positivity
    · exact absurd h (by simp)
  · rw [ite_eq_iff] at h
    rcases h with ⟨-, h⟩ | ⟨-, h⟩
    · rw [← Option.some_inj.mp h, Rat.mkRat_eq_div]; positivity
    · exact absurd h (by simp)


theorem stage1Candidate_range {text tl : List Char} {ind : String} {c : ℚ × Nat}
    (h : stage1Candidate text tl ind = some c) : 1 ≤ c.1 ∧ c.1 ≤ 10000000 := by
  unfold stage1Candidate at h
  split at h
  · exact absurd h (by simp)
  · simp only [] at h
    split at h
    · exact absurd h (by simp)
    · split at h
      · exact absurd h (by simp)
      · rw [ite_eq_iff] at h
        rcases h with ⟨hrange, h⟩ | ⟨-, h⟩
        · rw [ite_eq_iff] at h
          rcases h with ⟨-, h⟩ | ⟨-, h⟩
          · exact absurd h (by simp)
          · rw [ite_eq_iff] at h
            rcases h with ⟨-, h⟩ | ⟨-, h⟩
            · exact absurd h (by simp)
            · obtain rfl := Option.some_inj.mp h
              exact hrange
        · exact absurd h (by simp)

theorem mkMoney_value (code : String) (v : ℚ) : (mkMoney code v).value = v := rfl

theorem stage2Money_range {ndoc : NlpDoc} {tl : List Char} {m : MonetaryAmount}
    (h : stage2Money ndoc tl = some m) : 1 ≤ m.value ∧ m.value ≤ 10000000 := by
  obtain ⟨ent, -, he⟩ := findSome?_some_ex h
  split at he
  · simp only [] at he
    split at he
    · split at he
      · split at he
        · rw [ite_eq_iff] at he
          rcases he with ⟨hrange, he⟩ | ⟨-, he⟩
          · obtain rfl := Option.some_inj.mp he
            exact hrange
          · exact absurd he (by simp)
        · exact absurd he (by simp)
      · exact absurd he (by simp)
    · exact absurd he (by simp)
  · exact absurd he (by simp)

theorem stage3Scan_range {tl : List Char} {m : MonetaryAmount}
    (h : stage3Scan tl = some m) : 1 ≤ m.value ∧ m.value ≤ 10000000 := by
  unfold stage3Scan at h
  split at h
  · split at h
    · rw [ite_eq_iff] at h
      rcases h with ⟨hrange, h⟩ | ⟨-, h⟩
      · obtain rfl := Option.some_inj.mp h
        exact hrange
      · exact absurd h (by simp)
    · exact absurd h (by simp)
  · exact absurd h (by simp)

theorem stage4Tokens_range {ndoc : NlpDoc} {m : MonetaryAmount}
    (h : stage4Tokens ndoc = some m) : 1 ≤ m.value ∧ m.value ≤ 10000000 := by
  obtain ⟨p, -, hp⟩ := findSome?_some_ex h
  split at hp
  · split at hp
    · exact absurd hp (by simp)
    · rw [ite_eq_iff] at hp
      rcases hp with ⟨-, hp⟩ | ⟨-, hp⟩
      · exact absurd hp (by simp)
      · rw [ite_eq_iff] at hp
        rcases hp with ⟨hrange, hp⟩ | ⟨-, hp⟩
        · obtain rfl := Option.some_inj.mp hp
          exact hrange
        · exact absurd hp (by simp)
  · exact absurd hp (by simp)

theorem extract_amount_range {ndoc : NlpDoc} {text : List Char} {m : MonetaryAmount}
    (h : extract_amount ndoc text = some m) : 1 ≤ m.value ∧ m.value ≤ 10000000 := by
  unfold extract_amount at h
  simp only [] at h
  split at h
  · rename_i c hpick
    obtain rfl := Option.some_inj.mp h
    have hmem := pickEarliestBy_mem _ _ _ hpick
    obtain ⟨ind, -, hc⟩ := List.mem_filterMap.mp hmem
    have := stage1Candidate_range hc
    rw [mkMoney_value]
    exact this
  · split at h
    · obtain rfl := Option.some_inj.mp h
      rename_i hst
      exact stage2Money_range hst
    · split at h
      · obtain rfl := Option.some_inj.mp h
        rename_i hst
        exact stage3Scan_range hst
      · exact stage4Tokens_range h


theorem extract_date_ok_form {dt : DtLib} {now : PyDateTime} {text : List Char}
    {ts : Option PyDateTime} {s : String}
    (h : extract_date dt now text ts = Except.ok s) : ∃ d, s = fmtDate d := by
  unfold extract_date at h
  simp only [] at h
  split at h
  · rename_i r heq
    obtain ⟨a, -, ha⟩ := findSome?_some_ex heq
    obtain ⟨w, off⟩ := a
    simp only [] at ha
    rw [ite_eq_iff] at ha
    rcases ha with ⟨-, ha⟩ | ⟨-, ha⟩
    · obtain rfl := Option.some_inj.mp ha
      split at h
      · rename_i d _
        injection h with h
        exact ⟨d, h.symm⟩
      · exact absurd h (by simp)
    · exact absurd ha (by simp)
  · injection h with h
    split at h
    · rename_i d _
      exact ⟨d, h.symm⟩
    · exact ⟨ts.getD now, h.symm⟩

theorem scanSpecialized_none_no_loan_kw {tl : List Char} (h : scanSpecialized tl = none) :
    ∀ kw, kw ∈ loanConfig.keywords → containsSub tl kw.data = false := by
  intro kw hkw
  have hl := findSome?_none_all h ("loan", loanConfig)
    (by simp [TRANSACTION_CATEGORIES])
  simp only [] at hl
  rw [if_neg (by decide)] at hl
  have h2 := findSome?_none_all hl kw hkw
  cases hc : containsSub tl kw.data
  · rfl
  · rw [hc] at h2
    simp at h2

theorem loanRecheck_none_of {tl : List Char} (h : scanSpecialized tl = none) :
    loanRecheck tl = none := by
  unfold loanRecheck
  apply findSome?_all_none
  intro kw hkw
  rw [scanSpecialized_none_no_loan_kw h kw hkw]
  simp

theorem c1_is_transactional (nlp : Nlp) :
    is_transactional_message nlp c1text.data = true := by
  unfold is_transactional_message
  simp only []
  rw [if_neg (by decide)]
  have h3 : amountContextCheck (pyLower c1text.data) = true := by decide
  simp [h3]

theorem c1_detect (nlp : Nlp) :
    detect_category nlp c1text.data = ("debit", "general", mkRat 70 100) := by
  unfold detect_category
  simp only []
  rw [if_neg (by simp [c1_is_transactional nlp])]
  decide


/-! ## Claim theorems -/

set_option maxRecDepth 100000

/-- C1 (counterexample): on the text "Balance alert: Your savings
account balance is Rs 45000" (under a concrete analyzer instance) the
parser returns category "debit", no info_type key, and balance value
450 — not the category "informational", info_type "balance_update" and
balance 45000 the claim states, refuting it at its own input. -/
theorem C1_counterexample :
    (parse_sms_spacy emptyNlp dtKeep now0 "t0" c1text none).map
      (fun r => (r.category, r.info_type, r.balance.map fun b => b.value)) =
      Except.ok ("debit", none, some 450) ∧
    (("debit", (none : Option String), some (450 : ℚ)) ≠
      ("informational", some "balance_update", some 45000)) := by
  exact ⟨by decide, by decide⟩

/-- C1 (amended): for every analyzer, day-arithmetic library, clock
value and processing timestamp, parsing the balance-alert text yields
a record with category "debit", subcategory "general", confidence
0.70, no info_type key, and balance 450 INR (the balance regex stops
after the first three digits of 45000); the amount field is
analyzer-dependent and is not constrained. -/
theorem C1_amended (nlp : Nlp) (dt : DtLib) (now : PyDateTime) (iso : String) :
    (parse_sms_spacy nlp dt now iso c1text none).map
      (fun r => (r.category, r.subcategory, r.confidence, r.info_type, r.balance)) =
      Except.ok ("debit", "general", mkRat 70 100, none,
        some ⟨450, "INR", "INR 450.00"⟩) := by
  have hrel : dateRelStep dt now (pyLower c1text.data) none = none := by
    unfold dateRelStep
    apply findSome?_all_none
    intro a ha
    obtain ⟨w, off⟩ := a
    have hcf : containsSub (pyLower c1text.data) w.data = false := by
      fin_cases ha <;> decide
    simp only []
    rw [hcf]
    simp
  have hdate : extract_date dt now c1text.data none = Except.ok (fmtDate now) := by
    unfold extract_date
    simp only []
    rw [hrel]
    simp [show dateCompactStep (pyLower c1text.data) = none from by decide,
          show dateStandardStep (pyLower c1text.data) = none from by decide,
          show dateVerboseStep (pyLower c1text.data) = none from by decide,
          show dateIndicatorStep (pyLower c1text.data) = none from by decide]
  unfold parse_sms_spacy
  simp only []
  rw [if_neg (by decide)]
  simp only [c1_detect nlp]
  rw [hdate]
  simp only [Except.map]
  decide

/-- C2: the specialized-category scan's 0.85 return is reached even
when a context-phrase-bearing category's phrases all fail: on the
failing input "loan debited" the classifier returns ("loan", "", 0.85)
although none of the loan context phrases matches the normalized text.
This matches the spec's intent (and the code's own comment) being
violated by the fall-through after the context check. -/
theorem C2_contextless_loan_hit :
    detect_category emptyNlp (String.data "loan debited") = ("loan", "", mkRat 85 100) ∧
    (loanContextPhrases.any
      fun p => (rxSearch p (normalizeText (String.data "loan debited"))).isSome) = false := by
  constructor <;> decide

/-- C3: a non-null extract_amount result always lies in the range
[1, 10_000_000], through every fallback stage; hence every parsed
record with non-null amount satisfies the same bounds. -/
theorem C3_amount_range :
    (∀ (ndoc : NlpDoc) (text : List Char) (m : MonetaryAmount),
       extract_amount ndoc text = some m → 1 ≤ m.value ∧ m.value ≤ 10000000) ∧
    (∀ (nlp : Nlp) (dt : DtLib) (now : PyDateTime) (iso text : String)
       (ts : Option PyDateTime) (r : TransactionRecord) (a : ℚ),
       parse_sms_spacy nlp dt now iso text ts = Except.ok r → r.amount = some a →
       1 ≤ a ∧ a ≤ 10000000) := by
  constructor
  · intro ndoc text m h
    exact extract_amount_range h
  · intro nlp dt now iso text ts r a hp ha
    unfold parse_sms_spacy at hp
    simp only [] at hp
    split at hp
    · exact absurd hp (by simp)
    · split at hp
      · exact absurd hp (by simp)
      · injection hp with hp
        subst hp
        simp only [] at ha
        rcases Option.map_eq_some'.mp ha with ⟨m, hm, rfl⟩
        rw [ite_eq_iff] at hm
        rcases hm with ⟨-, hm⟩ | ⟨-, hm⟩
        · exact extract_amount_range hm
        · exact absurd hm (by simp)

/-- C3 (witness): the theorem applied to the concrete input
"charged 500 ok", whose indicator-context scan extracts 500. -/
theorem C3_witness : (1 : ℚ) ≤ (500 : ℚ) ∧ (500 : ℚ) ≤ 10000000 :=
  C3_amount_range.1 (emptyNlp (String.data "charged 500 ok"))
    (String.data "charged 500 ok") ⟨500, "INR", "INR 500.00"⟩ (by decide)

/-- C4: whenever parse succeeds with category "informational", the
amount, currency, formatted-amount, merchant and reference fields of
the record are all null (those extractors are not invoked). -/
theorem C4_informational_nulls (nlp : Nlp) (dt : DtLib) (now : PyDateTime)
    (iso text : String) (ts : Option PyDateTime)
    (h : (parse_sms_spacy nlp dt now iso text ts).map (fun r => r.category) =
      Except.ok "informational") :
    (parse_sms_spacy nlp dt now iso text ts).map
      (fun r => (r.amount, r.currency, r.formatted_amount, r.merchant, r.reference)) =
      Except.ok (none, none, none, none, none) := by
  unfold parse_sms_spacy at h ⊢
  simp only [] at h ⊢
  split at h
  · simp [Except.map] at h
  · rename_i hne
    split at h
    · simp [Except.map] at h
    · rename_i td htd
      rw [if_neg hne]
      simp only [Except.map] at h ⊢
      injection h with h
      simp only [h]
      simp

/-- C4 (witness): the theorem applied to the concrete informational
input "hello world". -/
theorem C4_witness :
    (parse_sms_spacy emptyNlp dtKeep now0 "t0" "hello world" none).map
      (fun r => (r.amount, r.currency, r.formatted_amount, r.merchant, r.reference)) =
      Except.ok (none, none, none, none, none) :=
  C4_informational_nulls emptyNlp dtKeep now0 "t0" "hello world" none (by decide)


/-- C5 (counterexample): on the non-empty input "15 May 0999" the
verbose date step parses year 999, and the platform's strftime renders
it unpadded, so the returned record's date is "999-05-15", which fails
the claimed four-digit-year pattern. -/
theorem C5_counterexample :
    (parse_sms_spacy emptyNlp dtKeep now0 "t0" "15 May 0999" none).map
      (fun r => (r.date, matchesYMD r.date)) = Except.ok ("999-05-15", false) := by
  decide

/-- C5 (amended): every record parse returns has a non-null date of
the form unpadded-year "-" two-digit month "-" two-digit day (one to
four year digits); it matches the four-digit-year pattern whenever the
resolved date's year is at least 1000; and when no date pattern of the
text matches (all five extraction steps fail), the date is the
reference timestamp (or the current time when absent) so formatted. -/
theorem C5_date_format (nlp : Nlp) (dt : DtLib) (now : PyDateTime) (iso text : String)
    (ts : Option PyDateTime) (r : TransactionRecord)
    (h : parse_sms_spacy nlp dt now iso text ts = Except.ok r) :
    matchesYMDRelaxed r.date = true ∧
      (∃ d : PyDateTime, r.date = fmtDate d ∧
        (1000 ≤ d.year → matchesYMD r.date = true)) ∧
      (dateRelStep dt now (pyLower text.data) ts = none →
       dateCompactStep (pyLower text.data) = none →
       dateStandardStep (pyLower text.data) = none →
       dateVerboseStep (pyLower text.data) = none →
       dateIndicatorStep (pyLower text.data) = none →
       r.date = fmtDate (ts.getD now)) := by
  unfold parse_sms_spacy at h
  simp only [] at h
  split at h
  · exact absurd h (by simp)
  · split at h
    · exact absurd h (by simp)
    · rename_i td htd
      injection h with h
      subst h
      refine ⟨?_, ?_, ?_⟩
      · obtain ⟨d, rfl⟩ := extract_date_ok_form htd
        exact fmtDate_matchesYMDRelaxed d
      · obtain ⟨d, rfl⟩ := extract_date_ok_form htd
        exact ⟨d, rfl, fun hy => fmtDate_matchesYMD_of_year_ge hy⟩
      · intro h1 h2 h3 h4 h5
        unfold extract_date at htd
        simp only [h1, h2, h3, h4, h5, Option.none_orElse] at htd
        injection htd with htd
        exact htd.symm

/-- C5 (witness): the theorem applied to the concrete input "hello"
with no timestamp: the date matches the relaxed shape, falls back to
the formatted clock value, and (the clock year being 2025 ≥ 1000)
matches the strict four-digit-year pattern. -/
theorem C5_witness :
    ∃ r, parse_sms_spacy emptyNlp dtKeep now0 "t0" "hello" none = Except.ok r ∧
      matchesYMDRelaxed r.date = true ∧ matchesYMD r.date = true ∧
      r.date = fmtDate now0 := by
  cases hp : parse_sms_spacy emptyNlp dtKeep now0 "t0" "hello" none with
  | error e =>
    have hok : isErr (parse_sms_spacy emptyNlp dtKeep now0 "t0" "hello" none) = false := by
      decide
    rw [hp] at hok
    simp [isErr] at hok
  | ok r =>
    have h := C5_date_format emptyNlp dtKeep now0 "t0" "hello" none r hp
    have h2 := h.2.2 (by decide) (by decide) (by decide) (by decide) (by decide)
    have hdate : r.date = fmtDate now0 := by simpa using h2
    refine ⟨r, rfl, h.1, ?_, hdate⟩
    rw [hdate]
    decide

/-- C6: parse fails exactly when the input is blank or the (modelled)
internal fault — the relative-date arithmetic overflow — occurs, and
a blank input produces the "Empty SMS content" error with no record. -/
theorem C6_error_iff (nlp : Nlp) (dt : DtLib) (now : PyDateTime) (iso text : String)
    (ts : Option PyDateTime) :
    isErr (parse_sms_spacy nlp dt now iso text ts) =
      (decide (stripWs text.data = []) || isErr (extract_date dt now text.data ts)) ∧
    (stripWs text.data = [] →
      parse_sms_spacy nlp dt now iso text ts = Except.error "Empty SMS content") := by
  constructor
  · unfold parse_sms_spacy
    simp only []
    by_cases he : stripWs text.data = []
    · rw [if_pos he, decide_eq_true he]
      simp [isErr]
    · rw [if_neg he, decide_eq_false he]
      cases hd : extract_date dt now text.data ts with
      | error e => simp [isErr]
      | ok d => simp [isErr]
  · intro he
    unfold parse_sms_spacy
    simp only []
    rw [if_pos he]

/-- C6 (witness): the empty string raises the empty-content error. -/
theorem C6_witness :
    parse_sms_spacy emptyNlp dtKeep now0 "t0" "" none = Except.error "Empty SMS content" :=
  (C6_error_iff emptyNlp dtKeep now0 "t0" "" none).2 (by decide)

/-- C7 (counterexample): on "Rs.5000 debited from A/c X6072" with an
analyzer supplying no entities and no tokens, extract_amount returns
no amount at all, refuting the claim that it yields 5000: the
indicator-context scan and the currency-prefixed scan reject every
candidate on this input, so 5000 can only come from the
analyzer-dependent stages. -/
theorem C7_counterexample :
    (extract_amount (emptyNlp c7text.data) c7text.data).map (fun m => m.value) = none ∧
      ((none : Option ℚ) ≠ some 5000) := by
  exact ⟨by decide, by decide⟩

/-- C7 (amended): on the account-guard input the deterministic stages
contribute nothing — the step-1 indicator scan yields no candidate
(6072 is rejected by the x/X/# preceding-character guard and the 500
prefix of 5000 by the terminator check) and the currency-prefixed scan
fails — so extract_amount equals whatever the analyzer-dependent
stages (MONEY entities, then number-like tokens) produce; in
particular the scans never yield 6072. -/
theorem C7_amended (ndoc : NlpDoc) :
    extract_amount ndoc c7text.data =
      (match stage2Money ndoc (pyLower c7text.data) with
       | some m => some m
       | none => stage4Tokens ndoc) ∧
    stage1Candidates c7text.data = [] ∧
    stage3Scan (pyLower c7text.data) = none := by
  refine ⟨?_, by decide, by decide⟩
  unfold extract_amount
  simp only []
  rw [show stage1Candidates c7text.data = [] from by decide]
  simp only [pickEarliestBy, List.foldl_nil]
  cases h2 : stage2Money ndoc (pyLower c7text.data) with
  | some m => rfl
  | none => rw [show stage3Scan (pyLower c7text.data) = none from by decide]

/-- C8 (counterexample): extract_balance applies no plausibility range
check — on "bal 0" it returns a balance of value 0, below the claimed
lower bound 1. -/
theorem C8_counterexample :
    (extract_balance (String.data "bal 0")).map (fun b => b.value) = some 0 ∧
      ¬ (1 : ℚ) ≤ 0 := by
  exact ⟨by decide, by decide⟩

/-- C8 (amended): a non-null extract_balance result carries the parsed
nonnegative decimal value; no range constraint beyond nonnegativity
(which follows from the digit syntax) is enforced. -/
theorem C8_balance_nonneg (text : List Char) (b : MonetaryAmount)
    (h : extract_balance text = some b) : 0 ≤ b.value := by
  unfold extract_balance at h
  simp only [] at h
  split at h
  · rename_i amt curr st hpick
    injection h with h
    subst h
    have hmem := pickEarliestBy_mem _ _ _ hpick
    obtain ⟨x, -, hx⟩ := List.mem_filterMap.mp hmem
    obtain ⟨a0, b0, caps⟩ := x
    simp only [] at hx
    rcases Option.map_eq_some'.mp hx with ⟨q, hq, heq⟩
    obtain ⟨rfl, -⟩ := Prod.mk.inj heq
    exact parseFloat_nonneg hq
  · exact absurd h (by simp)

/-- C8 (witness): the amended theorem applied at "bal 0", whose
extracted balance value is 0. -/
theorem C8_witness : (0 : ℚ) ≤ (0 : ℚ) :=
  C8_balance_nonneg (String.data "bal 0") ⟨0, "INR", "INR 0.00"⟩ (by decide)

/-- C9: the dedicated loan re-check is redundant — the classifier
computes the same triple as the variant with the re-check removed,
because the specialized scan already returns on every loan keyword
hit, so the re-check can never fire. -/
theorem C9_loan_recheck_redundant (nlp : Nlp) (text : List Char) :
    detect_category nlp text = detect_categoryNoLoanRecheck nlp text := by
  unfold detect_category detect_categoryNoLoanRecheck
  simp only []
  by_cases hg : is_transactional_message nlp text = true
  · rw [if_neg (by simp [hg]), if_neg (by simp [hg])]
    cases hsc : scanSpecialized (normalizeText text) with
    | some r => rfl
    | none => rw [loanRecheck_none_of hsc]
  · rw [if_pos hg, if_pos hg]

/-- C10: with the timestamp supplied, parsing is deterministic in
everything except the processing-timestamp field — two runs under
different clock readings yield records equal after erasing that
field. -/
theorem C10_deterministic (nlp : Nlp) (dt : DtLib) (now1 now2 : PyDateTime)
    (iso1 iso2 text : String) (ts : PyDateTime) :
    (parse_sms_spacy nlp dt now1 iso1 text (some ts)).map eraseTimestamp =
    (parse_sms_spacy nlp dt now2 iso2 text (some ts)).map eraseTimestamp := by
  have hd : extract_date dt now1 text.data (some ts) =
      extract_date dt now2 text.data (some ts) := by
    unfold extract_date dateRelStep
    simp
  unfold parse_sms_spacy
  simp only []
  by_cases he : stripWs text.data = []
  · rw [if_pos he, if_pos he]
  · rw [if_neg he, if_neg he, hd]
    cases hdd : extract_date dt now2 text.data (some ts) with
    | error e => rfl
    | ok d => simp [Except.map, eraseTimestamp]

end FinanceApp
